import Mathlib

/-!
Verification of the DailyBoost-Bot conversational wellness bot.

Shallow embedding of the repository's code:
  * `src/database.py`   — the SQLite gateway (`Database` class), modelled as pure
    functions over an explicit `DB` state (lists of rows plus AUTOINCREMENT
    counters).  Dates (`YYYY-MM-DD` ISO strings in SQLite) are modelled as `Int`
    day numbers: lexicographic comparison of valid ISO dates agrees with
    day-number order, and `timedelta(days=1)` is `- 1`.
  * `src/handlers/messages.py` and `src/handlers/commands.py` — the per-user
    conversation state machine.  Telegram's `context.user_data` dict is modelled
    as a record of `Option` fields, one per key the source ever stores
    (`dict.clear()` is the record with every field `none`).  Replies sent via
    `reply_text` are modelled as an inductive `Reply` tag per message site, and
    every gateway write performed during an event is recorded in a `GwCall`
    trace.  Gateway fallibility (the `try/except` blocks in `database.py` that
    return `False`) is modelled by a boolean `gwOk` parameter: when it is
    `false` the write raises before commit, so the store is unchanged and the
    operation reports failure.
-/

/-! ### Character and string helpers (Python semantics) -/

/-- Numeric code of a character (`Char.toNat`), used for ASCII comparisons. -/
def chN (c : Char) : Nat := c.toNat

/-- ASCII digit test, `48 ≤ code ≤ 57` (regex `\d` on ASCII input). -/
def isDig (c : Char) : Bool := 48 ≤ chN c && chN c ≤ 57

/-- Value of an ASCII digit character. -/
def dval (c : Char) : Nat := chN c - 48

/-- Python `str.strip()` whitespace set: space, \t, \n, \r, \v, \f. -/
def isPySpace (c : Char) : Bool :=
  chN c = 32 || chN c = 9 || chN c = 10 || chN c = 13 || chN c = 11 || chN c = 12

/-- Python `str.strip()`: drop leading and trailing whitespace. -/
def pyStrip (s : String) : String :=
  ⟨((s.data.dropWhile isPySpace).reverse.dropWhile isPySpace).reverse⟩

/-- ASCII lower-casing of one character (Python `str.lower()` on ASCII). -/
def lowChar (c : Char) : Char :=
  if 65 ≤ chN c && chN c ≤ 90 then Char.ofNat (chN c + 32) else c

/-- Python `str.lower()` (the source only compares against ASCII tokens
`'cancel'` and `'skip'`). -/
def pyLower (s : String) : String := ⟨s.data.map lowChar⟩

/-- Digit-run parser for Python `int()`: digits with single underscores allowed
only between digits.  `acc = none` until the first digit has been read. -/
def digitsCore : List Char → Option Nat → Option Nat
  | [], acc => acc
  | c :: rest, acc =>
    if isDig c then digitsCore rest (some ((acc.getD 0) * 10 + dval c))
    else if chN c = 95 then
      match acc, rest with
      | some _, c2 :: _ => if isDig c2 then digitsCore rest acc else none
      | _, _ => none
    else none

/-- Python `int(str)`: optional surrounding whitespace, optional single sign,
then a non-empty digit run (underscores between digits allowed).
Returns `none` where CPython raises `ValueError`. -/
def pyInt (s : String) : Option Int :=
  let l := (s.data.dropWhile isPySpace).reverse.dropWhile isPySpace |>.reverse
  match l with
  | '-' :: rest => (digitsCore rest none).map (fun n => -(n : Int))
  | '+' :: rest => (digitsCore rest none).map (fun n => (n : Int))
  | _ => (digitsCore l none).map (fun n => (n : Int))

/-! ### `datetime.strptime(s, '%H:%M')`

CPython's `_strptime.TimeRE` compiles `%H` to the regex `2[0-3]|[0-1]\d|\d`
and `%M` to `[0-5]\d|\d`, joins them with the literal `:` and requires the
match to consume the whole string (`unconverted data remains` otherwise).
`hourCands`/`minCands` list the suffixes left after each alternative that can
match a prefix, in the regex's alternation order; `any` over them is the
regex engine's backtracking. -/

/-- Suffixes after matching `%H` = `2[0-3]|[0-1]\d|\d` at the front of `l`. -/
def hourCands (l : List Char) : List (List Char) :=
  (match l with
   | c1 :: c2 :: r =>
     (if chN c1 = 50 && (48 ≤ chN c2 && chN c2 ≤ 51) then [r] else []) ++
     (if (48 ≤ chN c1 && chN c1 ≤ 49) && isDig c2 then [r] else [])
   | _ => []) ++
  (match l with
   | c :: r => if isDig c then [r] else []
   | _ => [])

/-- Suffixes after matching `%M` = `[0-5]\d|\d` at the front of `l`. -/
def minCands (l : List Char) : List (List Char) :=
  (match l with
   | c1 :: c2 :: r =>
     if (48 ≤ chN c1 && chN c1 ≤ 53) && isDig c2 then [r] else []
   | _ => []) ++
  (match l with
   | c :: r => if isDig c then [r] else []
   | _ => [])

/-- `True` iff `datetime.strptime(s, '%H:%M')` succeeds: some `%H` alternative,
then a literal `:`, then some `%M` alternative, consuming the whole string. -/
def strptimeHM (s : String) : Bool :=
  (hourCands s.data).any fun r1 =>
    match r1 with
    | c :: r2 => c = ':' && (minCands r2).any fun r3 => r3.isEmpty
    | [] => false

example : strptimeHM "22:30" = true := by decide
example : strptimeHM "7:30" = true := by decide
example : strptimeHM "25:00" = false := by decide
example : strptimeHM "" = false := by decide
example : strptimeHM "23:59" = true := by decide
example : strptimeHM "24:00" = false := by decide
example : strptimeHM "12:60" = false := by decide
example : strptimeHM "1:2:3" = false := by decide
example : pyInt "2500" = some 2500 := by decide
example : pyInt "-5" = some (-5) := by decide
example : pyInt "abc" = none := by decide
example : pyInt "2_500" = some 2500 := by decide
example : pyInt "_5" = none := by decide
example : pyLower "CANcel" = "cancel" := by decide
example : pyStrip "  hi " = "hi" := by decide

/-! ### Data model (`src/database.py`)

One structure per table row, keeping the schema's column names and `DEFAULT`s.
Only the tables the handlers under verification touch are modelled
(`users`, `mood_logs`, `habits`, `habit_logs`). -/

/-- A `users` row.  Defaults are the schema's `DEFAULT` clauses from
`init_database`. -/
structure UserRow where
  username : String
  preferred_name : String
  timezone : String := "UTC"
  bedtime : String := "22:00"
  waketime : String := "07:00"
  water_target : Int := 2500
  spiritual_enabled : Bool := false
  reading_enabled : Bool := false
  habits_enabled : Bool := true
deriving DecidableEq

/-- A `mood_logs` row.  `mood_score` is an `Option` because the column is
nullable and `add_mood_entry` inserts whatever it is given. -/
structure MoodRow where
  id : Nat
  user_id : Nat
  date : Int
  mood_score : Option Int
  note : Option String
deriving DecidableEq

/-- A `habits` row. -/
structure HabitRow where
  id : Nat
  user_id : Nat
  habit_name : String
deriving DecidableEq

/-- A `habit_logs` row. -/
structure HabitLogRow where
  id : Nat
  user_id : Nat
  habit_id : Nat
  date : Int
  completed : Bool
deriving DecidableEq

/-- The store: one list per modelled table (in insertion order, i.e. rowid
order, which is the order `fetchone`/`fetchall` return rows in for the
unordered queries), plus the AUTOINCREMENT counters. -/
structure DB where
  users : List (Nat × UserRow)
  mood_logs : List MoodRow
  habits : List HabitRow
  habit_logs : List HabitLogRow
  next_mood_id : Nat := 1
  next_habit_id : Nat := 1
  next_log_id : Nat := 1
deriving DecidableEq

/-- The freshly initialised database. -/
def emptyDB : DB := ⟨[], [], [], [], 1, 1, 1⟩

/-- Insert-or-replace an association keyed by `user_id`. -/
def setUser (users : List (Nat × UserRow)) (uid : Nat) (row : UserRow) :
    List (Nat × UserRow) :=
  match users with
  | [] => [(uid, row)]
  | (k, r) :: rest =>
    if k = uid then (k, row) :: rest else (k, r) :: setUser rest uid row

/-- `Database.get_user`: `SELECT * FROM users WHERE user_id = ?`. -/
def DB.get_user (db : DB) (uid : Nat) : Option UserRow :=
  (db.users.find? (fun p => p.1 == uid)).map (·.2)

/-- `Database.create_user`: `INSERT OR REPLACE INTO users (user_id, username,
preferred_name) VALUES (?, ?, ?)` — every column not listed takes its schema
default, so an existing row is replaced wholesale. -/
def DB.create_user (db : DB) (uid : Nat) (username preferred_name : String) :
    DB :=
  let row : UserRow := { username := username, preferred_name := preferred_name }
  { db with users := setUser db.users uid row }

/-- The closed set of columns `update_user(**kwargs)` is ever called with
(the source builds the `SET` clause dynamically from the keyword names;
these are all the keywords appearing at its call sites). -/
structure UserUpdate where
  preferred_name : Option String := none
  bedtime : Option String := none
  waketime : Option String := none
  water_target : Option Int := none
  spiritual_enabled : Option Bool := none
  reading_enabled : Option Bool := none
  habits_enabled : Option Bool := none
deriving DecidableEq

/-- Apply a partial update to a row. -/
def applyUpdate (r : UserRow) (u : UserUpdate) : UserRow :=
  { r with
    preferred_name := u.preferred_name.getD r.preferred_name
    bedtime := u.bedtime.getD r.bedtime
    waketime := u.waketime.getD r.waketime
    water_target := u.water_target.getD r.water_target
    spiritual_enabled := u.spiritual_enabled.getD r.spiritual_enabled
    reading_enabled := u.reading_enabled.getD r.reading_enabled
    habits_enabled := u.habits_enabled.getD r.habits_enabled }

/-- `Database.update_user`: `UPDATE users SET ... WHERE user_id = ?`.
If no row matches, zero rows are affected (still reported as success). -/
def DB.update_user (db : DB) (uid : Nat) (u : UserUpdate) : DB :=
  { db with users :=
      db.users.map (fun p => if p.1 = uid then (p.1, applyUpdate p.2 u) else p) }

/-- `Database.get_mood_entry`: first `mood_logs` row with this user and date. -/
def DB.get_mood_entry (db : DB) (uid : Nat) (d : Int) : Option MoodRow :=
  db.mood_logs.find? (fun r => r.user_id == uid && r.date == d)

/-- `Database.add_mood_entry`: look up an existing row for `(user_id, date)`;
update its `mood_score`/`note` by id if found, insert a new row otherwise. -/
def DB.add_mood_entry (db : DB) (uid : Nat) (score : Option Int)
    (note : Option String) (d : Int) : DB :=
  match db.mood_logs.find? (fun r => r.user_id == uid && r.date == d) with
  | some r0 =>
    { db with mood_logs := db.mood_logs.map (fun r =>
        if r.id = r0.id then { r with mood_score := score, note := note } else r) }
  | none =>
    { db with
      mood_logs := db.mood_logs ++
        [⟨db.next_mood_id, uid, d, score, note⟩]
      next_mood_id := db.next_mood_id + 1 }

/-- `Database.add_habit`: `INSERT INTO habits (user_id, habit_name)`. -/
def DB.add_habit (db : DB) (uid : Nat) (name : String) : DB :=
  { db with
    habits := db.habits ++ [⟨db.next_habit_id, uid, name⟩]
    next_habit_id := db.next_habit_id + 1 }

/-- `Database.get_user_habits`: `SELECT * FROM habits WHERE user_id = ?`.
The source appends `ORDER BY habit_name`; the ordering only affects display
sequence, which no verified property depends on, so it is not modelled. -/
def DB.get_user_habits (db : DB) (uid : Nat) : List HabitRow :=
  db.habits.filter (fun h => h.user_id == uid)

/-- `Database.delete_habit`: delete the habit's logs, then the habit. -/
def DB.delete_habit (db : DB) (uid : Nat) (hid : Nat) : DB :=
  { db with
    habit_logs := db.habit_logs.filter
      (fun l => !(l.user_id == uid && l.habit_id == hid))
    habits := db.habits.filter (fun h => !(h.user_id == uid && h.id == hid)) }

/-- `Database.log_habit`: upsert of `habit_logs` keyed on
`(user_id, habit_id, date)` (update the first existing row by id, else
insert). -/
def DB.log_habit (db : DB) (uid : Nat) (hid : Nat) (completed : Bool)
    (d : Int) : DB :=
  match db.habit_logs.find?
      (fun l => l.user_id == uid && l.habit_id == hid && l.date == d) with
  | some l0 =>
    { db with habit_logs := db.habit_logs.map (fun l =>
        if l.id = l0.id then { l with completed := completed } else l) }
  | none =>
    { db with
      habit_logs := db.habit_logs ++ [⟨db.next_log_id, uid, hid, d, completed⟩]
      next_log_id := db.next_log_id + 1 }

/-- `Database.get_habit_logs_for_date`: `habits LEFT JOIN habit_logs` on the
habit and the date — one row per matching log, or a single
`completed = false` row for a habit with no log that day.  (The source's
`ORDER BY habit_name` display ordering is not modelled.) -/
def DB.get_habit_logs_for_date (db : DB) (uid : Nat) (d : Int) :
    List (Nat × String × Bool) :=
  (db.get_user_habits uid).flatMap (fun h =>
    let ls := db.habit_logs.filter
      (fun l => l.habit_id == h.id && l.date == d && l.user_id == uid)
    match ls with
    | [] => [(h.id, h.habit_name, false)]
    | _ => ls.map (fun l => (h.id, h.habit_name, l.completed)))

/-! ### Habit aggregator (`src/database.py`) -/

/-- The `habit_logs` rows matching one habit inside the 7-day window
`[today-6, today]` (the left-join condition of `get_habit_stats_weekly`). -/
def windowLogs (db : DB) (uid : Nat) (today : Int) (hid : Nat) :
    List HabitLogRow :=
  db.habit_logs.filter (fun l =>
    l.habit_id == hid && l.user_id == uid &&
    (today - 6 ≤ l.date && l.date ≤ today))

/-- One habit's contribution to `get_habit_stats_weekly`'s joined rows: one
`(habit_name, completed)` row per log in the window, or a single
`(habit_name, NULL)` row for a habit with no log in the window. -/
def habitRowsFor (db : DB) (uid : Nat) (today : Int) (h : HabitRow) :
    List (String × Option Bool) :=
  match windowLogs db uid today h.id with
  | [] => [(h.habit_name, none)]
  | ls => ls.map (fun l => (h.habit_name, some l.completed))

/-- The rows returned by `get_habit_stats_weekly`'s query (`habits LEFT JOIN
habit_logs` over the window).  `ORDER BY` only affects row sequence; the
per-name aggregation below is order-insensitive. -/
def weeklyRows (db : DB) (uid : Nat) (today : Int) :
    List (String × Option Bool) :=
  (db.get_user_habits uid).flatMap (habitRowsFor db uid today)

/-- One step of the source's dict building: bump `(completed, total)` for
`name` in the insertion-ordered association list (creating the entry on first
sight), with `comp` the row's `bool(row[2]) if row[2] is not None else False`. -/
def bumpStat (acc : List (String × Nat × Nat)) (name : String) (comp : Bool) :
    List (String × Nat × Nat) :=
  match acc with
  | [] => [(name, (if comp then 1 else 0), 1)]
  | (n, c, t) :: rest =>
    if n = name then (n, c + (if comp then 1 else 0), t + 1) :: rest
    else (n, c, t) :: bumpStat rest name comp

/-- The `habit_stats` dict after the aggregation loop. -/
def aggWeekly (rows : List (String × Option Bool)) :
    List (String × Nat × Nat) :=
  rows.foldl (fun acc r => bumpStat acc r.1 (r.2.getD false)) []

/-- A `get_habit_stats_weekly` result entry: `completed`, `total`, and
`percentage`.  The Python float percentage is modelled as the exact rational
`completed / total * 100` (binary-float rounding is not modelled). -/
structure WeeklyStat where
  completed : Nat
  total : Nat
  percentage : ℚ
deriving DecidableEq

/-- Attach `percentage = completed / total * 100`, or 0 if `total = 0`
(which the aggregation loop never actually produces). -/
def mkWeekly (p : Nat × Nat) : WeeklyStat :=
  ⟨p.1, p.2, if 0 < p.2 then (p.1 : ℚ) / (p.2 : ℚ) * 100 else 0⟩

/-- `Database.get_habit_stats_weekly`: aggregate the window's joined rows per
habit name, then attach the percentage. -/
def DB.get_habit_stats_weekly (db : DB) (uid : Nat) (today : Int) :
    List (String × WeeklyStat) :=
  (aggWeekly (weeklyRows db uid today)).map (fun e => (e.1, mkWeekly e.2))

/-- `SELECT COUNT(*) FROM habits WHERE user_id = ?`. -/
def totalHabits (db : DB) (uid : Nat) : Nat :=
  (db.habits.filter (fun h => h.user_id == uid)).length

/-- `get_habit_streak`'s inner query: `COUNT(*)` over `habit_logs JOIN habits`
with `h.user_id = ?`, `hl.date = ?`, `hl.completed = 1` — one counted pair per
(log, habit) match; `habits.id` is a primary key, so this is the number of
completed logs on `d` whose habit belongs to `uid`. -/
def completedOn (db : DB) (uid : Nat) (d : Int) : Nat :=
  ((db.habit_logs.filter (fun l => l.date == d && l.completed)).flatMap
    (fun l => db.habits.filter
      (fun h => h.id == l.habit_id && h.user_id == uid))).length

/-- The source's `while True` walk: starting at day `d`, count consecutive
days (going backward) on which `completedOn = totalHabits`, stopping at the
first day that fails.  `fuel` bounds the recursion; `streakFuel` below always
exceeds the first failing day, so the value equals the Python loop's. -/
def streakLoop (db : DB) (uid : Nat) : Nat → Int → Nat
  | 0, _ => 0
  | fuel + 1, d =>
    if completedOn db uid d = totalHabits db uid then
      streakLoop db uid fuel (d - 1) + 1
    else 0

/-- Dates of the completed logs that `completedOn` can ever count (completed,
and owned via a habit of `uid`). -/
def relevantDates (db : DB) (uid : Nat) : List Int :=
  (db.habit_logs.filter (fun l =>
    l.completed && db.habits.any
      (fun h => h.id == l.habit_id && h.user_id == uid))).map (·.date)

/-- A fuel bound that reaches strictly below the earliest relevant log date
(every day below it has `completedOn = 0`, so the walk must stop there). -/
def streakFuel (db : DB) (uid : Nat) (today : Int) : Nat :=
  (today - (relevantDates db uid).foldl min today).toNat + 2

/-- `Database.get_habit_streak`: 0 for a user with no habits, otherwise the
backward walk from today. -/
def DB.get_habit_streak (db : DB) (uid : Nat) (today : Int) : Nat :=
  if totalHabits db uid = 0 then 0
  else streakLoop db uid (streakFuel db uid today) today

/-- `Database.get_habit_overall_stats`: totals over the user's entire
`habit_logs` history (joined to their habits). -/
def DB.get_habit_overall_stats (db : DB) (uid : Nat) : Nat × Nat × ℚ :=
  let pairs := db.habit_logs.flatMap (fun l =>
    db.habits.filter (fun h => h.id == l.habit_id && h.user_id == uid))
  let total := pairs.length
  let comp := ((db.habit_logs.filter (fun l => l.completed)).flatMap (fun l =>
    db.habits.filter (fun h => h.id == l.habit_id && h.user_id == uid))).length
  (total, comp, if 0 < total then (comp : ℚ) / (total : ℚ) * 100 else 0)

/-! ### Conversation sessions (`telegram` `context.user_data`)

The handlers store only these string keys in the per-user dict; each is a
field here, `none` meaning "key absent".  `context.user_data.clear()` is
`({} : UserData)`. -/

structure UserData where
  onboarding_step : Option String := none
  preferences_mode : Option String := none
  mood_step : Option String := none
  habit_step : Option String := none
  bedtime : Option String := none
  waketime : Option String := none
  water_target : Option Int := none
  spiritual_enabled : Option Bool := none
  reading_enabled : Option Bool := none
  habits_enabled : Option Bool := none
  mood_rating : Option Int := none
  new_bedtime : Option String := none
deriving DecidableEq

/-- One tag per distinct `reply_text`/`reply_photo` message site in the
handlers (message text, emoji and keyboards are presentation and are not
modelled; `moduleSelection` is `show_module_selection`'s message). -/
inductive Reply where
  | errorTryAgain      -- "Sorry, there was an error. Please try again."
  | niceToMeet         -- "Nice to meet you, ...! ... target bedtime?"
  | invalidTime        -- "Please enter a valid time in HH:MM format ..."
  | askWaketime        -- "Great! And what time do you usually wake up? ..."
  | askWaterTarget     -- "Perfect! What's your daily water intake goal ..."
  | invalidWater       -- "Please enter a valid number for your water target ..."
  | moduleSelection    -- show_module_selection's toggle menu
  | spiritualToggled   -- "📿 Spiritual Check enabled/disabled!"
  | readingToggled     -- "📚 Reading Tracker enabled/disabled!"
  | habitsToggled      -- "🎯 Custom Habits enabled/disabled!"
  | errorSavingSettings -- "Sorry, there was an error saving your settings ..."
  | setupComplete      -- "🎉 Setup complete! ..."
  | askNewName         -- "What would you like me to call you? ..."
  | askBedtime         -- "Let's update your sleep schedule ..."
  | askWaterGoal       -- "What's your daily water intake goal in ml? ..."
  | prefsCancelled     -- "Preferences cancelled ..."
  | nameUpdated        -- "✅ Name updated to: ..."
  | nameUpdateError    -- "❌ Error updating name ..."
  | sleepUpdated       -- "✅ Sleep times updated! ..."
  | sleepUpdateError   -- "❌ Error updating sleep times ..."
  | waterUpdated       -- "✅ Water goal updated to ..."
  | waterUpdateError   -- "❌ Error updating water goal ..."
  | modulesUpdated     -- "✅ Modules updated! ..."
  | modulesUpdateError -- "❌ Error updating modules ..."
  | askNote            -- "You rated your day ... add a note ...?"
  | ratingReprompt     -- "Please select a rating from 1-5:"
  | moodLogged         -- "Mood logged successfully! ..."
  | moodSaveError      -- "Sorry, there was an error saving your mood ..."
  | habitCancelled     -- "Habit creation cancelled! ❌"
  | firstHabitCreated  -- "Great! Your first habit ... has been created! ..."
  | habitCreateError   -- "Sorry, there was an error creating your habit ..."
  | askNewHabit        -- "What new habit would you like to track? ..."
  | noHabitsToDelete   -- "You don't have any habits to delete!"
  | chooseDelete       -- "Which habit would you like to delete? ..."
  | noHabitsYet        -- "You don't have any habits to track yet! ..."
  | todaysProgress     -- show_daily_habits' progress message
  | habitMgmtCancelled -- "Habit management cancelled! 👍"
  | habitAdded         -- "Excellent! New habit ... added! ..."
  | habitAddError      -- "Sorry, there was an error adding your habit ..."
  | habitsMenu         -- "🎯 Your Habits: ... What would you like to do?"
  | habitDeleted       -- "Habit ... has been deleted! ..."
  | habitDeleteError   -- "Sorry, there was an error deleting the habit."
  | habitNotFound      -- "Habit not found. Please try again."
  | welcomeBack        -- "/start with an existing account"
  | welcomeOnboard     -- "/start onboarding greeting"
  | prefsMenu          -- "/preferences current-settings menu"
  | alreadyLoggedToday -- "/mood when today already has an entry"
  | askRating          -- "/mood rating prompt"
  | useStartFirst      -- "You haven't completed onboarding yet! ..."
  | didNotUnderstand   -- "I didn't understand that. Use /help ..."
deriving DecidableEq

/-- A gateway write performed while handling one event (recorded whether or
not the write succeeded). -/
inductive GwCall where
  | createUser (uid : Nat)
  | updateUser (uid : Nat)
  | upsertMood (uid : Nat)
  | addHabit (uid : Nat)
  | deleteHabit (uid : Nat)
deriving DecidableEq

/-- Result of processing one inbound event: the session and store afterwards,
the replies sent, and the gateway writes attempted. -/
structure EventResult where
  ud : UserData
  db : DB
  replies : List Reply
  calls : List GwCall
deriving DecidableEq

/-- A fallible gateway write: with `gwOk` it runs `f` and reports success;
without, the underlying SQLite call raised before commit, leaving the store
unchanged, and the `database.py` wrapper returned `False`. -/
def gwTry (gwOk : Bool) (f : DB → DB) (db : DB) : Bool × DB :=
  if gwOk then (true, f db) else (false, db)

/-! ### Flow handlers (`src/handlers/messages.py`) -/

/-- `handle_onboarding`. -/
def handle_onboarding (gwOk : Bool) (uid : Nat) (raw : String)
    (ud : UserData) (db : DB) : EventResult :=
  match ud.onboarding_step with
  | none => ⟨ud, db, [], []⟩
  | some step =>
    if step = "name" then
      let nm := pyStrip raw
      let r := gwTry gwOk (fun d => d.update_user uid { preferred_name := some nm }) db
      if r.1 then
        ⟨{ ud with onboarding_step := some "bedtime" }, r.2,
          [Reply.niceToMeet], [GwCall.updateUser uid]⟩
      else ⟨ud, r.2, [Reply.errorTryAgain], [GwCall.updateUser uid]⟩
    else if step = "bedtime" then
      let t := pyStrip raw
      if strptimeHM t then
        ⟨{ ud with bedtime := some t, onboarding_step := some "waketime" }, db,
          [Reply.askWaketime], []⟩
      else ⟨ud, db, [Reply.invalidTime], []⟩
    else if step = "waketime" then
      let t := pyStrip raw
      if strptimeHM t then
        ⟨{ ud with waketime := some t, onboarding_step := some "water_target" }, db,
          [Reply.askWaterTarget], []⟩
      else ⟨ud, db, [Reply.invalidTime], []⟩
    else if step = "water_target" then
      match pyInt (pyStrip raw) with
      | some w =>
        if w ≤ 0 then ⟨ud, db, [Reply.invalidWater], []⟩
        else
          let ud' := { ud with water_target := some w, spiritual_enabled := some false, reading_enabled := some false, habits_enabled := some true, onboarding_step := some "modules" }
          ⟨ud', db, [Reply.moduleSelection], []⟩
      | none => ⟨ud, db, [Reply.invalidWater], []⟩
    else if step = "modules" then
      let t := pyStrip raw
      if t = "📿 Spiritual Check" then
        ⟨{ ud with spiritual_enabled := some (!(ud.spiritual_enabled.getD false)) },
          db, [Reply.spiritualToggled, Reply.moduleSelection], []⟩
      else if t = "📚 Reading Tracker" then
        ⟨{ ud with reading_enabled := some (!(ud.reading_enabled.getD false)) },
          db, [Reply.readingToggled, Reply.moduleSelection], []⟩
      else if t = "🎯 Custom Habits" then
        ⟨{ ud with habits_enabled := some (!(ud.habits_enabled.getD true)) },
          db, [Reply.habitsToggled, Reply.moduleSelection], []⟩
      else if t = "✅ Done" then
        let upd : UserUpdate :=
          { bedtime := some (ud.bedtime.getD "22:00")
            waketime := some (ud.waketime.getD "07:00")
            water_target := some (ud.water_target.getD 2500)
            spiritual_enabled := some (ud.spiritual_enabled.getD false)
            reading_enabled := some (ud.reading_enabled.getD false)
            habits_enabled := some (ud.habits_enabled.getD true) }
        let r := gwTry gwOk (fun d => d.update_user uid upd) db
        if r.1 then ⟨{}, r.2, [Reply.setupComplete], [GwCall.updateUser uid]⟩
        else ⟨ud, r.2, [Reply.errorSavingSettings], [GwCall.updateUser uid]⟩
      else ⟨ud, db, [], []⟩   -- unmatched text at the modules step: no branch runs
    else ⟨ud, db, [], []⟩     -- unknown step tag: no branch runs

/-- `handle_preferences`. -/
def handle_preferences (gwOk : Bool) (uid : Nat) (raw : String)
    (ud : UserData) (db : DB) : EventResult :=
  match ud.preferences_mode with
  | none => ⟨ud, db, [], []⟩
  | some mode =>
    let t := pyStrip raw
    if mode = "main_menu" then
      if t = "👤 Change Name" then
        ⟨{ ud with preferences_mode := some "change_name" }, db, [Reply.askNewName], []⟩
      else if t = "🛏️ Change Sleep Times" then
        ⟨{ ud with preferences_mode := some "change_bedtime" }, db, [Reply.askBedtime], []⟩
      else if t = "💧 Change Water Goal" then
        ⟨{ ud with preferences_mode := some "change_water" }, db, [Reply.askWaterGoal], []⟩
      else if t = "⚙️ Toggle Modules" then
        match db.get_user uid with
        | some u =>
          let ud' := { ud with spiritual_enabled := some u.spiritual_enabled, reading_enabled := some u.reading_enabled, habits_enabled := some u.habits_enabled, preferences_mode := some "toggle_modules" }
          ⟨ud', db, [Reply.moduleSelection], []⟩
        | none => ⟨ud, db, [], []⟩
          -- source raises AttributeError on `None.get` here; unreachable, since
          -- /preferences only opens this menu for an existing user
      else if t = "❌ Cancel" then ⟨{}, db, [Reply.prefsCancelled], []⟩
      else ⟨ud, db, [], []⟩   -- unmatched text at the menu: no branch runs, no reply
    else if mode = "change_name" then
      let r := gwTry gwOk (fun d => d.update_user uid { preferred_name := some t }) db
      if r.1 then ⟨{}, r.2, [Reply.nameUpdated], [GwCall.updateUser uid]⟩
      else ⟨{}, r.2, [Reply.nameUpdateError], [GwCall.updateUser uid]⟩
    else if mode = "change_bedtime" then
      if strptimeHM t then
        ⟨{ ud with new_bedtime := some t, preferences_mode := some "change_waketime" },
          db, [Reply.askWaketime], []⟩
      else ⟨ud, db, [Reply.invalidTime], []⟩
    else if mode = "change_waketime" then
      if strptimeHM t then
        -- source passes `user_data.get('new_bedtime')`; it is always set on this
        -- step's only entry path (change_bedtime), so the `None` default is moot
        let upd : UserUpdate :=
          { bedtime := some (ud.new_bedtime.getD "22:00"), waketime := some t }
        let r := gwTry gwOk (fun d => d.update_user uid upd) db
        if r.1 then ⟨{}, r.2, [Reply.sleepUpdated], [GwCall.updateUser uid]⟩
        else ⟨{}, r.2, [Reply.sleepUpdateError], [GwCall.updateUser uid]⟩
      else ⟨ud, db, [Reply.invalidTime], []⟩
    else if mode = "change_water" then
      match pyInt t with
      | some w =>
        if w ≤ 0 then ⟨ud, db, [Reply.invalidWater], []⟩
        else
          let r := gwTry gwOk (fun d => d.update_user uid { water_target := some w }) db
          if r.1 then ⟨{}, r.2, [Reply.waterUpdated], [GwCall.updateUser uid]⟩
          else ⟨{}, r.2, [Reply.waterUpdateError], [GwCall.updateUser uid]⟩
      | none => ⟨ud, db, [Reply.invalidWater], []⟩
    else if mode = "toggle_modules" then
      if t = "📿 Spiritual Check" then
        ⟨{ ud with spiritual_enabled := some (!(ud.spiritual_enabled.getD false)) },
          db, [Reply.spiritualToggled, Reply.moduleSelection], []⟩
      else if t = "📚 Reading Tracker" then
        ⟨{ ud with reading_enabled := some (!(ud.reading_enabled.getD false)) },
          db, [Reply.readingToggled, Reply.moduleSelection], []⟩
      else if t = "🎯 Custom Habits" then
        ⟨{ ud with habits_enabled := some (!(ud.habits_enabled.getD true)) },
          db, [Reply.habitsToggled, Reply.moduleSelection], []⟩
      else if t = "✅ Done" then
        let upd : UserUpdate :=
          { spiritual_enabled := some (ud.spiritual_enabled.getD false)
            reading_enabled := some (ud.reading_enabled.getD false)
            habits_enabled := some (ud.habits_enabled.getD true) }
        let r := gwTry gwOk (fun d => d.update_user uid upd) db
        if r.1 then ⟨{}, r.2, [Reply.modulesUpdated], [GwCall.updateUser uid]⟩
        else ⟨{}, r.2, [Reply.modulesUpdateError], [GwCall.updateUser uid]⟩
      else ⟨ud, db, [], []⟩
    else ⟨ud, db, [], []⟩

/-- `handle_mood_flow` (`today` is `date.today()`). -/
def handle_mood_flow (gwOk : Bool) (uid : Nat) (today : Int) (raw : String)
    (ud : UserData) (db : DB) : EventResult :=
  match ud.mood_step with
  | none => ⟨ud, db, [], []⟩
  | some step =>
    let t := pyStrip raw
    if step = "rating" then
      if t = "1" || t = "2" || t = "3" || t = "4" || t = "5" then
        ⟨{ ud with mood_rating := pyInt t, mood_step := some "note" }, db,
          [Reply.askNote], []⟩
      else ⟨ud, db, [Reply.ratingReprompt], []⟩
    else if step = "note" then
      let note := if pyLower t = "skip" then none else some t
      let r := gwTry gwOk
        (fun d => d.add_mood_entry uid ud.mood_rating note today) db
      -- the source clears user_data before checking success, so the session is
      -- reset on both branches
      if r.1 then ⟨{}, r.2, [Reply.moodLogged], [GwCall.upsertMood uid]⟩
      else ⟨{}, r.2, [Reply.moodSaveError], [GwCall.upsertMood uid]⟩
    else ⟨ud, db, [], []⟩

/-- `text.startswith("❌ ")`. -/
def startsWithCross (s : String) : Bool :=
  match s.data with
  | '❌' :: ' ' :: _ => true
  | _ => false

/-- `text[2:]`: drop the first two characters. -/
def dropTwoChars (s : String) : String := ⟨s.data.drop 2⟩

/-- `handle_habit_flow` (`today` is `date.today()`, used by the
"Today's Progress" branch). -/
def handle_habit_flow (gwOk : Bool) (uid : Nat) (today : Int) (raw : String)
    (ud : UserData) (db : DB) : EventResult :=
  match ud.habit_step with
  | none => ⟨ud, db, [], []⟩
  | some step =>
    let t := pyStrip raw
    if step = "add_first" then
      if pyLower t = "cancel" then ⟨{}, db, [Reply.habitCancelled], []⟩
      else
        let r := gwTry gwOk (fun d => d.add_habit uid t) db
        -- user_data is cleared before the success check
        if r.1 then ⟨{}, r.2, [Reply.firstHabitCreated], [GwCall.addHabit uid]⟩
        else ⟨{}, r.2, [Reply.habitCreateError], [GwCall.addHabit uid]⟩
    else if step = "manage" then
      if t = "➕ Add Habit" then
        ⟨{ ud with habit_step := some "add_new" }, db, [Reply.askNewHabit], []⟩
      else if t = "🗑️ Delete Habit" then
        if (db.get_user_habits uid).isEmpty then
          ⟨{}, db, [Reply.noHabitsToDelete], []⟩
        else ⟨{ ud with habit_step := some "delete" }, db, [Reply.chooseDelete], []⟩
      else if t = "📊 Today's Progress" then
        -- show_daily_habits (read-only), then clear
        if (db.get_habit_logs_for_date uid today).isEmpty then
          ⟨{}, db, [Reply.noHabitsYet], []⟩
        else ⟨{}, db, [Reply.todaysProgress], []⟩
      else if t = "❌ Cancel" then ⟨{}, db, [Reply.habitMgmtCancelled], []⟩
      else ⟨ud, db, [], []⟩   -- unmatched text at the menu: no branch runs, no reply
    else if step = "add_new" then
      if pyLower t = "cancel" then ⟨{}, db, [Reply.habitCancelled], []⟩
      else
        let r := gwTry gwOk (fun d => d.add_habit uid t) db
        if r.1 then ⟨{}, r.2, [Reply.habitAdded], [GwCall.addHabit uid]⟩
        else ⟨{}, r.2, [Reply.habitAddError], [GwCall.addHabit uid]⟩
    else if step = "delete" then
      if t = "🔙 Back" then
        ⟨{ ud with habit_step := some "manage" }, db, [Reply.habitsMenu], []⟩
      else if startsWithCross t then
        let name := dropTwoChars t
        match (db.get_user_habits uid).find? (fun h => h.habit_name == name) with
        | some h =>
          let r := gwTry gwOk (fun d => d.delete_habit uid h.id) db
          if r.1 then ⟨{}, r.2, [Reply.habitDeleted], [GwCall.deleteHabit uid]⟩
          else ⟨{}, r.2, [Reply.habitDeleteError], [GwCall.deleteHabit uid]⟩
        | none => ⟨{}, db, [Reply.habitNotFound], []⟩
      else ⟨ud, db, [], []⟩   -- neither "Back" nor "❌ "-prefixed: no branch runs
    else ⟨ud, db, [], []⟩

/-- `handle_text_message`: dispatch on which flow key is set, in the source's
fixed priority order. -/
def handle_text_message (gwOk : Bool) (uid : Nat) (today : Int) (raw : String)
    (ud : UserData) (db : DB) : EventResult :=
  if ud.onboarding_step.isSome then handle_onboarding gwOk uid raw ud db
  else if ud.preferences_mode.isSome then handle_preferences gwOk uid raw ud db
  else if ud.mood_step.isSome then handle_mood_flow gwOk uid today raw ud db
  else if ud.habit_step.isSome then handle_habit_flow gwOk uid today raw ud db
  else ⟨ud, db, [Reply.didNotUnderstand], []⟩

/-! ### Command handlers (`src/handlers/commands.py`) -/

/-- `/start`. -/
def start_command (gwOk : Bool) (uid : Nat) (username : String)
    (ud : UserData) (db : DB) : EventResult :=
  match db.get_user uid with
  | some _ => ⟨ud, db, [Reply.welcomeBack], []⟩
  | none =>
    let r := gwTry gwOk (fun d => d.create_user uid username "") db
    -- the create_user return value is ignored; onboarding starts regardless
    ⟨{ ud with onboarding_step := some "name" }, r.2,
      [Reply.welcomeOnboard], [GwCall.createUser uid]⟩

/-- `/mood` (`today` is `date.today()`).  Note: only `mood_step` is written;
any other flow key already in `user_data` stays set. -/
def mood_command (gwOk : Bool) (uid : Nat) (username firstName : String)
    (today : Int) (ud : UserData) (db : DB) : EventResult :=
  let s : DB × List GwCall :=
    match db.get_user uid with
    | some _ => (db, [])
    | none =>
      let r := gwTry gwOk (fun d => d.create_user uid username firstName) db
      (r.2, [GwCall.createUser uid])
  let rep := match s.1.get_mood_entry uid today with
    | some _ => Reply.alreadyLoggedToday
    | none => Reply.askRating
  ⟨{ ud with mood_step := some "rating" }, s.1, [rep], s.2⟩

/-- `/habits`.  As with `/mood`, only `habit_step` is written. -/
def habits_command (gwOk : Bool) (uid : Nat) (username firstName : String)
    (ud : UserData) (db : DB) : EventResult :=
  let s : DB × List GwCall :=
    match db.get_user uid with
    | some _ => (db, [])
    | none =>
      let r := gwTry gwOk (fun d => d.create_user uid username firstName) db
      (r.2, [GwCall.createUser uid])
  if (s.1.get_user_habits uid).isEmpty then
    ⟨{ ud with habit_step := some "add_first" }, s.1, [Reply.askNewHabit], s.2⟩
  else
    ⟨{ ud with habit_step := some "manage" }, s.1, [Reply.habitsMenu], s.2⟩

/-- `/preferences`.  Only `preferences_mode` is written. -/
def preferences_command (uid : Nat) (ud : UserData) (db : DB) : EventResult :=
  match db.get_user uid with
  | none => ⟨ud, db, [Reply.useStartFirst], []⟩
  | some _ =>
    ⟨{ ud with preferences_mode := some "main_menu" }, db, [Reply.prefsMenu], []⟩

/-! ### Event runner -/

/-- An inbound event for one user. -/
inductive Event where
  | startCmd (username : String)
  | msg (raw : String)
  | moodCmd (username firstName : String)
  | habitsCmd (username firstName : String)
  | prefsCmd
deriving DecidableEq

/-- A user's session plus the store. -/
structure World where
  ud : UserData
  db : DB
deriving DecidableEq

/-- Deliver one event (dropping the outbound replies/calls). -/
def stepEvent (gwOk : Bool) (uid : Nat) (today : Int) (w : World)
    (e : Event) : World :=
  match e with
  | Event.startCmd un =>
    let r := start_command gwOk uid un w.ud w.db; ⟨r.ud, r.db⟩
  | Event.msg s =>
    let r := handle_text_message gwOk uid today s w.ud w.db; ⟨r.ud, r.db⟩
  | Event.moodCmd un fn =>
    let r := mood_command gwOk uid un fn today w.ud w.db; ⟨r.ud, r.db⟩
  | Event.habitsCmd un fn =>
    let r := habits_command gwOk uid un fn w.ud w.db; ⟨r.ud, r.db⟩
  | Event.prefsCmd =>
    let r := preferences_command uid w.ud w.db; ⟨r.ud, r.db⟩

/-- Deliver a sequence of events for one user. -/
def runEvents (gwOk : Bool) (uid : Nat) (today : Int) (w : World)
    (es : List Event) : World :=
  es.foldl (stepEvent gwOk uid today) w

/-! ### Concrete example states used by witnesses and counterexamples -/

/-- A store holding user 1 with one habit "Run". -/
def dbRun : DB := (emptyDB.create_user 1 "runner" "Ray").add_habit 1 "Run"

/-- A session waiting at the mood rating step. -/
def udMoodRating : UserData := { mood_step := some "rating" }

/-- A session at the mood note step with rating 4 collected. -/
def udMoodNote : UserData := { mood_step := some "note", mood_rating := some 4 }

/-- User 1 with habit "Gym" logged on 3 of the 7 days ending day 10
(completed on days 10 and 9, not completed on day 8). -/
def dbGym : DB :=
  ((((emptyDB.create_user 1 "g" "Gia").add_habit 1 "Gym").log_habit 1 1 true 10).log_habit
    1 1 true 9).log_habit 1 1 false 8

/-- User 1 with habit "Yoga" and no habit logs at all. -/
def dbYoga : DB := (emptyDB.create_user 1 "y" "Yan").add_habit 1 "Yoga"

/-- User 1 with habits A and B, both completed on days 10, 9, 8, and only A
completed on day 7. -/
def dbTwoHabits : DB :=
  (((((((((emptyDB.create_user 1 "t" "Tay").add_habit 1 "A").add_habit
    1 "B").log_habit 1 1 true 10).log_habit 1 2 true 10).log_habit
    1 1 true 9).log_habit 1 2 true 9).log_habit 1 1 true 8).log_habit
    1 2 true 8).log_habit 1 1 true 7

/-! ### Supporting list lemmas -/

theorem setUser_find? (l : List (Nat × UserRow)) (uid : Nat) (row : UserRow) :
    (setUser l uid row).find? (fun p => p.1 == uid) = some (uid, row) := by
  induction l with
  | nil => simp [setUser]
  | cons p rest ih =>
    obtain ⟨k, r⟩ := p
    by_cases hk : k = uid
    · subst hk
      simp [setUser, List.find?]
    · simp [setUser, hk, List.find?, ih]

/-- A list of length at most 1 containing `x` is exactly `[x]`. -/
theorem eq_singleton_of_length_le_one {α : Type} {l : List α} {x : α}
    (hlen : l.length ≤ 1) (hx : x ∈ l) : l = [x] := by
  match l with
  | [] => cases hx
  | [a] => simp_all
  | a :: b :: t => simp at hlen

/-! ### C10: CreateUser replaces an existing row wholesale -/

/-- C10: `create_user` on a `user_id` that already has a row is not a no-op:
`INSERT OR REPLACE` keyed on `user_id` replaces the whole row, overwriting
`preferred_name` with the given value and resetting bedtime, waketime,
water target and the three module flags to their schema defaults, discarding
the user's previously committed preferences. -/
theorem create_user_replaces_existing_row (db : DB) (uid : Nat)
    (un pn : String) (old : UserRow) (_hold : db.get_user uid = some old) :
    (db.create_user uid un pn).get_user uid =
      some ⟨un, pn, "UTC", "22:00", "07:00", 2500, false, false, true⟩ := by
  simp [DB.get_user, DB.create_user, setUser_find?]

/-- Witness for C10 at a user whose committed preferences (bedtime 23:45,
water 9) are then discarded by a second `create_user`. -/
theorem create_user_replaces_existing_row_witness :
    ((((emptyDB.create_user 1 "u" "Old").update_user 1
        { bedtime := some "23:45", water_target := some 9 }).create_user
        1 "u2" "New").get_user 1) =
      some ⟨"u2", "New", "UTC", "22:00", "07:00", 2500, false, false, true⟩ :=
  create_user_replaces_existing_row _ 1 "u2" "New"
    ⟨"u", "Old", "UTC", "23:45", "07:00", 9, false, false, true⟩ (by decide)

/-! ### C5: the literal onboarding sequence -/

/-- The event sequence of the claim: `/start` as a new user, then
"Alex", "22:30", "07:00", "2500", and `✅ Done` immediately. -/
def onboardEvents : List Event :=
  [Event.startCmd "alex_tg", Event.msg "Alex", Event.msg "22:30",
   Event.msg "07:00", Event.msg "2500", Event.msg "✅ Done"]

/-- C5: feeding a new user the literal sequence ["Alex", "22:30", "07:00",
"2500", Done-immediately] ends with a stored User record with preferred name
"Alex", bedtime "22:30", waketime "07:00", water target 2500, modules
(spiritual, reading, habits) = (false, false, true), and the session reset
to no active flow. -/
theorem onboarding_literal_sequence :
    (runEvents true 1 0 ⟨{}, emptyDB⟩ onboardEvents).db.get_user 1 =
      some ⟨"alex_tg", "Alex", "UTC", "22:30", "07:00", 2500, false, false, true⟩ ∧
    (runEvents true 1 0 ⟨{}, emptyDB⟩ onboardEvents).ud = {} := by
  decide

/-! ### C9: invalid water target is a pure re-prompt -/

/-- C9: at a water-target step (onboarding `water_target` or preferences
`change_water`), input that does not parse as a positive integer leaves the
session on the same step with the same scratch, performs no gateway write
(in particular no `UpdateUser`/`CreateUser`), and re-prompts. -/
theorem invalid_water_target_no_write (gwOk : Bool) (uid : Nat) (today : Int)
    (raw : String) (ud : UserData) (db : DB)
    (hbad : pyInt (pyStrip raw) = none ∨
      ∃ k, pyInt (pyStrip raw) = some k ∧ k ≤ 0) :
    (ud.onboarding_step = some "water_target" →
      handle_text_message gwOk uid today raw ud db =
        ⟨ud, db, [Reply.invalidWater], []⟩) ∧
    (ud.onboarding_step = none → ud.preferences_mode = some "change_water" →
      handle_text_message gwOk uid today raw ud db =
        ⟨ud, db, [Reply.invalidWater], []⟩) := by
  constructor
  · intro h1
    simp only [handle_text_message, h1, Option.isSome_some, if_true]
    simp only [handle_onboarding, h1]
    rcases hbad with hn | ⟨k, hk, hk0⟩
    · simp [hn]
    · simp [hk, hk0]
  · intro h1 h2
    simp only [handle_text_message, h1, h2, Option.isSome_none, Option.isSome_some,
      if_true, Bool.false_eq_true, if_false]
    simp only [handle_preferences, h2]
    rcases hbad with hn | ⟨k, hk, hk0⟩
    · simp [hn]
    · simp [hk, hk0]

/-- Witness for C9: "-5" at the onboarding water step and at the preferences
water step changes nothing and performs no gateway call. -/
theorem invalid_water_target_no_write_witness :
    handle_text_message true 1 0 "-5"
        ({ onboarding_step := some "water_target" } : UserData) dbRun =
      ⟨{ onboarding_step := some "water_target" }, dbRun, [Reply.invalidWater], []⟩ ∧
    handle_text_message true 1 0 "abc"
        ({ preferences_mode := some "change_water" } : UserData) dbRun =
      ⟨{ preferences_mode := some "change_water" }, dbRun, [Reply.invalidWater], []⟩ :=
  ⟨(invalid_water_target_no_write true 1 0 "-5" _ dbRun
      (Or.inr ⟨-5, by decide, by decide⟩)).1 rfl,
   (invalid_water_target_no_write true 1 0 "abc" _ dbRun
      (Or.inl (by decide))).2 rfl rfl⟩

/-! ### C8: unmatched text at a menu step -/

/-- C8 counterexample: at the preferences main menu, a text matching no
branch produces no reply at all — the claimed menu re-display with an
"unrecognized" notice never happens (and likewise the habit manage menu). -/
theorem menu_unmatched_produces_no_reply_cex :
    (handle_text_message true 1 0 "hello"
      ({ preferences_mode := some "main_menu" } : UserData) dbRun).replies = [] ∧
    (handle_text_message true 1 0 "hello"
      ({ habit_step := some "manage" } : UserData) dbRun).replies = [] := by
  decide

/-- C8 amended: at the menu-style steps (preferences `main_menu`, habit
`manage`), text matching no expected token leaves the session on the same
step with the store untouched, but produces no reply whatsoever (no menu
re-display, no "unrecognized" notice) and no gateway call. -/
theorem menu_unmatched_silently_ignored (gwOk : Bool) (uid : Nat)
    (today : Int) (raw : String) (ud : UserData) (db : DB) :
    (ud.onboarding_step = none → ud.preferences_mode = some "main_menu" →
      pyStrip raw ≠ "👤 Change Name" → pyStrip raw ≠ "🛏️ Change Sleep Times" →
      pyStrip raw ≠ "💧 Change Water Goal" → pyStrip raw ≠ "⚙️ Toggle Modules" →
      pyStrip raw ≠ "❌ Cancel" →
      handle_text_message gwOk uid today raw ud db = ⟨ud, db, [], []⟩) ∧
    (ud.onboarding_step = none → ud.preferences_mode = none →
      ud.mood_step = none → ud.habit_step = some "manage" →
      pyStrip raw ≠ "➕ Add Habit" → pyStrip raw ≠ "🗑️ Delete Habit" →
      pyStrip raw ≠ "📊 Today's Progress" → pyStrip raw ≠ "❌ Cancel" →
      handle_text_message gwOk uid today raw ud db = ⟨ud, db, [], []⟩) := by
  constructor
  · intro h1 h2 t1 t2 t3 t4 t5
    simp only [handle_text_message, h1, h2, Option.isSome_none, Option.isSome_some,
      if_true, Bool.false_eq_true, if_false]
    simp [handle_preferences, h2, t1, t2, t3, t4, t5]
  · intro h1 h2 h3 h4 t1 t2 t3 t4
    simp only [handle_text_message, h1, h2, h3, h4, Option.isSome_none,
      Option.isSome_some, if_true, Bool.false_eq_true, if_false]
    simp [handle_habit_flow, h4, t1, t2, t3, t4]

/-- Witness for C8's amended statement at a concrete unmatched input. -/
theorem menu_unmatched_silently_ignored_witness :
    handle_text_message true 1 0 "what?"
        ({ preferences_mode := some "main_menu" } : UserData) dbRun =
      ⟨{ preferences_mode := some "main_menu" }, dbRun, [], []⟩ :=
  (menu_unmatched_silently_ignored true 1 0 "what?" _ dbRun).1 rfl rfl
    (by decide) (by decide) (by decide) (by decide) (by decide)

/-! ### C1: gateway failure at a commit step -/

/-- C1 counterexample: with the gateway failing, submitting the mood note
does notify the user (`moodSaveError`) but clears the session instead of
preserving it — the state afterwards is not the state before, so resubmitting
the same input cannot retry the commit. -/
theorem commit_failure_clears_session_cex :
    handle_mood_flow false 1 0 "great day" udMoodNote dbRun =
      ⟨{}, dbRun, [Reply.moodSaveError], [GwCall.upsertMood 1]⟩ ∧
    ({} : UserData) ≠ udMoodNote := by
  decide

/-- C1 amended: when the gateway write fails at a commit step, the user is
notified with an error message, but only the onboarding commit preserves the
session; the mood-entry, habit-creation and preferences commits clear the
session (flow, step and scratch are reset), so resubmitting the same input
does not retry the commit. -/
theorem commit_failure_notifies_but_clears_session (uid : Nat) (today : Int)
    (raw : String) (ud : UserData) (db : DB) :
    (ud.mood_step = some "note" →
      handle_mood_flow false uid today raw ud db =
        ⟨{}, db, [Reply.moodSaveError], [GwCall.upsertMood uid]⟩) ∧
    (ud.habit_step = some "add_first" → pyLower (pyStrip raw) ≠ "cancel" →
      handle_habit_flow false uid today raw ud db =
        ⟨{}, db, [Reply.habitCreateError], [GwCall.addHabit uid]⟩) ∧
    (ud.habit_step = some "add_new" → pyLower (pyStrip raw) ≠ "cancel" →
      handle_habit_flow false uid today raw ud db =
        ⟨{}, db, [Reply.habitAddError], [GwCall.addHabit uid]⟩) ∧
    (ud.preferences_mode = some "change_name" →
      handle_preferences false uid raw ud db =
        ⟨{}, db, [Reply.nameUpdateError], [GwCall.updateUser uid]⟩) ∧
    (ud.preferences_mode = some "change_waketime" →
      strptimeHM (pyStrip raw) = true →
      handle_preferences false uid raw ud db =
        ⟨{}, db, [Reply.sleepUpdateError], [GwCall.updateUser uid]⟩) ∧
    (ud.preferences_mode = some "change_water" →
      (∃ k, pyInt (pyStrip raw) = some k ∧ 0 < k) →
      handle_preferences false uid raw ud db =
        ⟨{}, db, [Reply.waterUpdateError], [GwCall.updateUser uid]⟩) ∧
    (ud.preferences_mode = some "toggle_modules" → pyStrip raw = "✅ Done" →
      handle_preferences false uid raw ud db =
        ⟨{}, db, [Reply.modulesUpdateError], [GwCall.updateUser uid]⟩) ∧
    (ud.onboarding_step = some "modules" → pyStrip raw = "✅ Done" →
      handle_onboarding false uid raw ud db =
        ⟨ud, db, [Reply.errorSavingSettings], [GwCall.updateUser uid]⟩) := by
  refine ⟨?_, ?_, ?_, ?_, ?_, ?_, ?_, ?_⟩
  · intro h; simp [handle_mood_flow, h, gwTry]
  · intro h hc; simp [handle_habit_flow, h, hc, gwTry]
  · intro h hc; simp [handle_habit_flow, h, hc, gwTry]
  · intro h; simp [handle_preferences, h, gwTry]
  · intro h ht; simp [handle_preferences, h, ht, gwTry]
  · intro h hk
    obtain ⟨k, hk1, hk2⟩ := hk
    simp [handle_preferences, h, hk1, gwTry, Int.not_le.mpr hk2, hk2]
  · intro h ht; simp [handle_preferences, h, ht, gwTry]
  · intro h ht; simp [handle_onboarding, h, ht, gwTry]

/-- Witness for C1's amended statement: a failed habit-creation commit. -/
theorem commit_failure_notifies_but_clears_session_witness :
    handle_habit_flow false 1 0 "Meditate"
        ({ habit_step := some "add_first" } : UserData) dbRun =
      ⟨{}, dbRun, [Reply.habitCreateError], [GwCall.addHabit 1]⟩ :=
  (commit_failure_notifies_but_clears_session 1 0 "Meditate" _ dbRun).2.1
    rfl (by decide)

/-! ### C3: "at most one active flow" -/

/-- C3 counterexample: with a mood flow waiting at its rating step, `/habits`
(for a user with an existing habit) starts a habit flow — but the old mood
key stays set, and the next text, the habit menu's own "➕ Add Habit" token,
is answered by the mood flow's rating re-prompt while the habit flow is still
waiting at `manage`.  Starting the new flow did not abandon the old one, and
the next text event was not interpreted by the newly started flow. -/
theorem new_flow_does_not_abandon_old_cex :
    (habits_command true 1 "runner" "Ray" udMoodRating dbRun).ud =
      { udMoodRating with habit_step := some "manage" } ∧
    handle_text_message true 1 0 "➕ Add Habit"
        { udMoodRating with habit_step := some "manage" } dbRun =
      ⟨{ udMoodRating with habit_step := some "manage" }, dbRun,
        [Reply.ratingReprompt], []⟩ := by
  decide

/-- C3 amended: a user can have several flow keys set at once.  The `/mood`,
`/habits` and `/preferences` commands set only their own flow key and leave
every other flow key untouched, and the text dispatcher picks the handler by
the fixed priority onboarding → preferences → mood → habit; hence starting a
flow of lower dispatch priority than one already in progress does not
abandon the in-progress flow, which keeps interpreting subsequent text. -/
theorem flow_keys_coexist_dispatch_priority (gwOk : Bool) (uid : Nat)
    (un fn raw : String) (today : Int) (ud : UserData) (db : DB) :
    ((mood_command gwOk uid un fn today ud db).ud =
      { ud with mood_step := some "rating" }) ∧
    ((habits_command gwOk uid un fn ud db).ud.onboarding_step =
        ud.onboarding_step ∧
      (habits_command gwOk uid un fn ud db).ud.preferences_mode =
        ud.preferences_mode ∧
      (habits_command gwOk uid un fn ud db).ud.mood_step = ud.mood_step) ∧
    ((preferences_command uid ud db).ud.onboarding_step = ud.onboarding_step ∧
      (preferences_command uid ud db).ud.mood_step = ud.mood_step ∧
      (preferences_command uid ud db).ud.habit_step = ud.habit_step) ∧
    (ud.onboarding_step = none → ud.preferences_mode = none →
      ud.mood_step.isSome →
      handle_text_message gwOk uid today raw ud db =
        handle_mood_flow gwOk uid today raw ud db) := by
  refine ⟨?_, ?_, ?_, ?_⟩
  · unfold mood_command
    cases db.get_user uid <;> simp
  · unfold habits_command
    cases db.get_user uid <;> simp <;> split <;> exact ⟨rfl, rfl, rfl⟩
  · unfold preferences_command
    cases db.get_user uid <;> exact ⟨rfl, rfl, rfl⟩
  · intro h1 h2 h3
    simp [handle_text_message, h1, h2, h3]

/-- Witness for C3's amended statement: `/habits` during the mood flow keeps
the mood key; the dispatcher then hands the next text to the mood flow. -/
theorem flow_keys_coexist_dispatch_priority_witness :
    (habits_command true 1 "runner" "Ray" udMoodRating dbRun).ud.mood_step =
      udMoodRating.mood_step ∧
    handle_text_message true 1 0 "hi" udMoodRating dbRun =
      handle_mood_flow true 1 0 "hi" udMoodRating dbRun :=
  ⟨(flow_keys_coexist_dispatch_priority true 1 "runner" "Ray" "hi" 0
      udMoodRating dbRun).2.1.2.2,
   (flow_keys_coexist_dispatch_priority true 1 "runner" "Ray" "hi" 0
      udMoodRating dbRun).2.2.2 rfl rfl (by decide)⟩

/-! ### C7: mood upsert keeps one row per (user, date) -/

/-- The `mood_logs` rows for one `(user, date)` pair. -/
def moodPairRows (db : DB) (uid : Nat) (d : Int) : List MoodRow :=
  db.mood_logs.filter (fun r => r.user_id == uid && r.date == d)

/-- At most one mood row per `(user, date)` pair. -/
def MoodInvariant (db : DB) : Prop :=
  ∀ uid d, (moodPairRows db uid d).length ≤ 1

/-- Filtering commutes with mapping a function that does not change the
predicate's verdict. -/
theorem filter_map_comm {α : Type} (f : α → α) (p : α → Bool)
    (hpf : ∀ a, p (f a) = p a) : ∀ l : List α,
    (l.map f).filter p = (l.filter p).map f := by
  intro l
  induction l with
  | nil => rfl
  | cons a t ih =>
    by_cases hpa : p a = true
    · simp [List.filter, hpf, hpa, ih]
    · simp only [Bool.not_eq_true] at hpa
      simp [List.filter, hpf, hpa, ih]

theorem add_mood_rows (db : DB) (uid : Nat) (d : Int) (s : Option Int)
    (n : Option String) (h : MoodInvariant db) :
    ∃ i, moodPairRows (db.add_mood_entry uid s n d) uid d =
      [⟨i, uid, d, s, n⟩] := by
  unfold DB.add_mood_entry
  cases hf : db.mood_logs.find? (fun r => r.user_id == uid && r.date == d) with
  | none =>
    refine ⟨db.next_mood_id, ?_⟩
    have hnil : db.mood_logs.filter (fun r => r.user_id == uid && r.date == d) = [] :=
      List.filter_eq_nil_iff.mpr (List.find?_eq_none.mp hf)
    simp [moodPairRows, List.filter_append, hnil]
  | some r0 =>
    have hq := List.find?_some hf
    have hmem : r0 ∈ db.mood_logs := List.mem_of_find?_eq_some hf
    have huid : r0.user_id = uid := by
      simp only [Bool.and_eq_true, beq_iff_eq] at hq; exact hq.1
    have hd : r0.date = d := by
      simp only [Bool.and_eq_true, beq_iff_eq] at hq; exact hq.2
    refine ⟨r0.id, ?_⟩
    have hsingle :
        db.mood_logs.filter (fun r => r.user_id == uid && r.date == d) = [r0] :=
      eq_singleton_of_length_le_one (h uid d) (List.mem_filter.mpr ⟨hmem, hq⟩)
    have hcomm : ∀ (r : MoodRow),
        (((if r.id = r0.id then { r with mood_score := s, note := n } else r) :
          MoodRow).user_id == uid &&
         ((if r.id = r0.id then { r with mood_score := s, note := n } else r) :
          MoodRow).date == d) =
        (r.user_id == uid && r.date == d) := by
      intro r; split <;> rfl
    have hfm := filter_map_comm
      (fun r : MoodRow =>
        if r.id = r0.id then { r with mood_score := s, note := n } else r)
      (fun r => r.user_id == uid && r.date == d) hcomm db.mood_logs
    simp only [moodPairRows]
    rw [hfm, hsingle]
    simp [huid, hd]

theorem add_mood_inv (db : DB) (uid : Nat) (d : Int) (s : Option Int)
    (n : Option String) (h : MoodInvariant db) :
    MoodInvariant (db.add_mood_entry uid s n d) := by
  intro uid' d'
  unfold DB.add_mood_entry
  cases hf : db.mood_logs.find? (fun r => r.user_id == uid && r.date == d) with
  | none =>
    simp only [moodPairRows, List.filter_append]
    by_cases hq : (uid == uid' && d == d') = true
    · have huid : uid = uid' := by
        simp only [Bool.and_eq_true, beq_iff_eq] at hq; exact hq.1
      have hd : d = d' := by
        simp only [Bool.and_eq_true, beq_iff_eq] at hq; exact hq.2
      subst huid; subst hd
      have hnil : db.mood_logs.filter (fun r => r.user_id == uid && r.date == d) = [] :=
        List.filter_eq_nil_iff.mpr (List.find?_eq_none.mp hf)
      simp [hnil]
    · simp only [List.length_append]
      have h2 : (List.filter (fun r => r.user_id == uid' && r.date == d')
          [(⟨db.next_mood_id, uid, d, s, n⟩ : MoodRow)]).length = 0 := by
        simp only [List.filter, List.length_nil]
        simp only [Bool.and_eq_true, beq_iff_eq] at hq ⊢
        split
        · next hcond =>
          exfalso; apply hq
          simp only [Bool.and_eq_true, beq_iff_eq] at hcond
          exact hcond
        · simp
      rw [h2]
      have := h uid' d'
      simpa [moodPairRows] using this
  | some r0 =>
    have hcomm : ∀ (r : MoodRow),
        (((if r.id = r0.id then { r with mood_score := s, note := n } else r) :
          MoodRow).user_id == uid' &&
         ((if r.id = r0.id then { r with mood_score := s, note := n } else r) :
          MoodRow).date == d') =
        (r.user_id == uid' && r.date == d') := by
      intro r; split <;> rfl
    have hfm := filter_map_comm
      (fun r : MoodRow =>
        if r.id = r0.id then { r with mood_score := s, note := n } else r)
      (fun r => r.user_id == uid' && r.date == d') hcomm db.mood_logs
    simp only [moodPairRows]
    rw [hfm]
    simpa [moodPairRows] using h uid' d'

/-- C7: the mood-entry upsert maintains "at most one MoodEntry row per
(user, date)", and submitting score `s1` then score `s2` for the same date
leaves exactly one row for that pair, carrying `s2` (and the second note). -/
theorem mood_upsert_unique (db : DB) (uid : Nat) (d : Int)
    (s1 s2 : Option Int) (n1 n2 : Option String) (h : MoodInvariant db) :
    MoodInvariant (db.add_mood_entry uid s1 n1 d) ∧
    ∃ i, moodPairRows
        ((db.add_mood_entry uid s1 n1 d).add_mood_entry uid s2 n2 d) uid d =
      [⟨i, uid, d, s2, n2⟩] :=
  ⟨add_mood_inv db uid d s1 n1 h,
   add_mood_rows _ uid d s2 n2 (add_mood_inv db uid d s1 n1 h)⟩

/-- Witness for C7: rating 4 then rating 2 on day 5 leaves exactly one row,
with score 2. -/
theorem mood_upsert_unique_witness :
    ∃ i, moodPairRows
        ((dbRun.add_mood_entry 1 (some 4) (some "ok") 5).add_mood_entry
          1 (some 2) none 5) 1 5 =
      [⟨i, 1, 5, some 2, none⟩] :=
  (mood_upsert_unique dbRun 1 5 (some 4) (some 2) (some "ok") none
    (fun _ _ => Nat.zero_le 1)).2

/-! ### C6: streak computation -/

/-- `foldl min` is below its seed and every list element. -/
theorem foldl_min_le (l : List Int) :
    ∀ a : Int, l.foldl min a ≤ a ∧ ∀ x ∈ l, l.foldl min a ≤ x := by
  induction l with
  | nil => intro a; exact ⟨le_refl a, by simp⟩
  | cons b t ih =>
    intro a
    refine ⟨le_trans (ih (min a b)).1 (min_le_left a b), ?_⟩
    intro x hx
    rcases List.mem_cons.mp hx with h | h
    · subst h; exact le_trans (ih (min a x)).1 (min_le_right a x)
    · exact (ih (min a b)).2 x h

/-- Below the minimum relevant log date there are no completed logs. -/
theorem completedOn_eq_zero_below_min (db : DB) (uid : Nat) (today d : Int)
    (hd : d < (relevantDates db uid).foldl min today) :
    completedOn db uid d = 0 := by
  unfold completedOn
  rw [List.length_eq_zero, List.flatMap_eq_nil_iff]
  intro l hl
  obtain ⟨hmem, hpl⟩ := List.mem_filter.mp hl
  simp only [Bool.and_eq_true, beq_iff_eq] at hpl
  by_contra hne
  obtain ⟨hb0, hb0mem⟩ := List.exists_mem_of_ne_nil _ hne
  have hany : db.habits.any
      (fun hb => hb.id == l.habit_id && hb.user_id == uid) = true := by
    obtain ⟨hb1, hb2⟩ := List.mem_filter.mp hb0mem
    exact List.any_eq_true.mpr ⟨hb0, hb1, hb2⟩
  have hrel : l.date ∈ relevantDates db uid := by
    unfold relevantDates
    exact List.mem_map.mpr ⟨l, List.mem_filter.mpr
      ⟨hmem, by simp [hpl.2, hany]⟩, rfl⟩
  have hmin := (foldl_min_le (relevantDates db uid) today).2 l.date hrel
  rw [hpl.1] at hmin
  omega

/-- The backward walk, given enough fuel to reach a failing day, computes
exactly "count days until the first failure". -/
theorem streakLoop_spec (db : DB) (uid : Nat) :
    ∀ (fuel : Nat) (d : Int),
      (∃ k : Nat, k < fuel ∧ completedOn db uid (d - k) ≠ totalHabits db uid) →
      ∀ n : Nat, (streakLoop db uid fuel d = n ↔
        ((∀ k : Nat, k < n → completedOn db uid (d - k) = totalHabits db uid) ∧
          completedOn db uid (d - n) ≠ totalHabits db uid)) := by
  intro fuel
  induction fuel with
  | zero =>
    intro d hex n
    exact absurd hex (by rintro ⟨k, hk, -⟩; omega)
  | succ m ih =>
    intro d hex n
    by_cases hc : completedOn db uid d = totalHabits db uid
    · obtain ⟨k, hk, hkf⟩ := hex
      have hk0 : k ≠ 0 := by
        intro h0; subst h0
        apply hkf
        simpa using hc
      have hex' : ∃ k' : Nat, k' < m ∧
          completedOn db uid ((d - 1) - k') ≠ totalHabits db uid := by
        refine ⟨k - 1, by omega, ?_⟩
        have heq : (d - 1 - ((k - 1 : Nat) : Int)) = d - (k : Int) := by omega
        rw [heq]; exact hkf
      have hstep : streakLoop db uid (m + 1) d = streakLoop db uid m (d - 1) + 1 := by
        simp [streakLoop, hc]
      rw [hstep]
      cases n with
      | zero =>
        constructor
        · intro h01; omega
        · rintro ⟨-, hfail⟩
          exact absurd (by simpa using hc) hfail
      | succ n' =>
        have IH := ih (d - 1) hex' n'
        constructor
        · intro hL
          have hL' : streakLoop db uid m (d - 1) = n' := by omega
          obtain ⟨hall, hfail⟩ := IH.mp hL'
          refine ⟨?_, ?_⟩
          · intro k2 hk2
            cases k2 with
            | zero => simpa using hc
            | succ k3 =>
              have hk3 := hall k3 (by omega)
              have heq : d - ((k3 + 1 : Nat) : Int) = (d - 1) - (k3 : Int) := by
                push_cast; ring
              rw [heq]; exact hk3
          · have heq : d - ((n' + 1 : Nat) : Int) = (d - 1) - (n' : Int) := by
              push_cast; ring
            rw [heq]; exact hfail
        · rintro ⟨hall, hfail⟩
          have hall' : ∀ k2 : Nat, k2 < n' →
              completedOn db uid ((d - 1) - k2) = totalHabits db uid := by
            intro k2 hk2
            have h2 := hall (k2 + 1) (by omega)
            have heq : d - ((k2 + 1 : Nat) : Int) = (d - 1) - (k2 : Int) := by
              push_cast; ring
            rw [heq] at h2; exact h2
          have hfail' : completedOn db uid ((d - 1) - (n' : Int)) ≠
              totalHabits db uid := by
            have heq : d - ((n' + 1 : Nat) : Int) = (d - 1) - (n' : Int) := by
              push_cast; ring
            rw [heq] at hfail; exact hfail
          have := IH.mpr ⟨hall', hfail'⟩
          omega
    · have hstep : streakLoop db uid (m + 1) d = 0 := by
        simp [streakLoop, hc]
      rw [hstep]
      constructor
      · intro h0
        refine ⟨by omega, ?_⟩
        have hn : n = 0 := by omega
        subst hn
        simpa using hc
      · rintro ⟨hall, -⟩
        by_contra hne
        have hn : n ≠ 0 := by omega
        have h0 := hall 0 (by omega)
        exact hc (by simpa using h0)

/-- C6: the streak walks backward day-by-day from today, counting a day
exactly when the number of completed habit logs that day equals the user's
current habit count, stopping at the first failing day (today failing gives
0); a user with zero habits has streak 0. -/
theorem streak_spec (db : DB) (uid : Nat) (today : Int) :
    (totalHabits db uid = 0 → db.get_habit_streak uid today = 0) ∧
    (totalHabits db uid ≠ 0 → ∀ n : Nat,
      (db.get_habit_streak uid today = n ↔
        ((∀ k : Nat, k < n →
            completedOn db uid (today - k) = totalHabits db uid) ∧
          completedOn db uid (today - n) ≠ totalHabits db uid))) := by
  constructor
  · intro h0; simp [DB.get_habit_streak, h0]
  · intro hT n
    have hex : ∃ k : Nat, k < streakFuel db uid today ∧
        completedOn db uid (today - k) ≠ totalHabits db uid := by
      refine ⟨(today - (relevantDates db uid).foldl min today).toNat + 1, ?_, ?_⟩
      · unfold streakFuel; omega
      · have hlt : today -
            (((today - (relevantDates db uid).foldl min today).toNat + 1 : Nat) : Int) <
            (relevantDates db uid).foldl min today := by omega
        rw [completedOn_eq_zero_below_min db uid today _ hlt]
        omega
    unfold DB.get_habit_streak
    rw [if_neg hT]
    exact streakLoop_spec db uid (streakFuel db uid today) today hex n

/-- Witness for C6: two habits, both completed on days 10, 9, 8, only one on
day 7 — streak at day 10 is 3. -/
theorem streak_spec_witness : dbTwoHabits.get_habit_streak 1 10 = 3 :=
  ((streak_spec dbTwoHabits 1 10).2 (by decide) 3).mpr (by decide)

/-! ### C4: weekly statistics -/

/-- Lookup in the aggregation association list (the Python dict). -/
def lookStat : List (String × Nat × Nat) → String → Option (Nat × Nat)
  | [], _ => none
  | (n, c, t) :: rest, name =>
    if n = name then some (c, t) else lookStat rest name

/-- Lookup in the final stats list. -/
def lookWeekly : List (String × WeeklyStat) → String → Option WeeklyStat
  | [], _ => none
  | (n, s) :: rest, name => if n = name then some s else lookWeekly rest name

theorem lookWeekly_map (g : Nat × Nat → WeeklyStat) :
    ∀ (l : List (String × Nat × Nat)) (name : String),
      lookWeekly (l.map (fun e => (e.1, g e.2))) name =
        (lookStat l name).map g := by
  intro l
  induction l with
  | nil => intro name; rfl
  | cons e rest ih =>
    intro name
    obtain ⟨n, c, t⟩ := e
    by_cases hn : n = name
    · simp [lookWeekly, lookStat, hn]
    · simp [lookWeekly, lookStat, hn, ih]

theorem lookStat_bump_self (acc : List (String × Nat × Nat)) (name : String)
    (comp : Bool) :
    lookStat (bumpStat acc name comp) name =
      some (match lookStat acc name with
            | some (c, t) => (c + (if comp then 1 else 0), t + 1)
            | none => ((if comp then 1 else 0), 1)) := by
  induction acc with
  | nil => simp [bumpStat, lookStat]
  | cons e rest ih =>
    obtain ⟨n, c, t⟩ := e
    by_cases hn : n = name
    · subst hn; simp [bumpStat, lookStat]
    · simp [bumpStat, lookStat, hn, ih]

theorem lookStat_bump_other (acc : List (String × Nat × Nat))
    (name n' : String) (comp : Bool) (hne : n' ≠ name) :
    lookStat (bumpStat acc name comp) n' = lookStat acc n' := by
  induction acc with
  | nil => simp [bumpStat, lookStat, Ne.symm hne]
  | cons e rest ih =>
    obtain ⟨n, c, t⟩ := e
    by_cases hn : n = name
    · subst hn; simp [bumpStat, lookStat, Ne.symm hne]
    · simp [bumpStat, lookStat, hn, ih]

/-- The dict-building fold computes, per key, the row count and the count of
completed rows. -/
theorem lookStat_agg (rows : List (String × Option Bool)) :
    ∀ (acc : List (String × Nat × Nat)) (name : String),
      lookStat (rows.foldl (fun a r => bumpStat a r.1 (r.2.getD false)) acc)
          name =
        (match lookStat acc name with
         | some (c, t) =>
           some (c + rows.countP (fun r => r.1 == name && r.2.getD false),
                 t + rows.countP (fun r => r.1 == name))
         | none =>
           if rows.countP (fun r => r.1 == name) = 0 then none
           else some (rows.countP (fun r => r.1 == name && r.2.getD false),
                      rows.countP (fun r => r.1 == name))) := by
  induction rows with
  | nil =>
    intro acc name
    cases h : lookStat acc name with
    | none => simp [h]
    | some p => obtain ⟨c, t⟩ := p; simp [h]
  | cons r rest ih =>
    intro acc name
    simp only [List.foldl_cons]
    rw [ih (bumpStat acc r.1 (r.2.getD false)) name]
    by_cases hn : r.1 = name
    · rw [hn, lookStat_bump_self]
      cases h : lookStat acc name with
      | none =>
        cases hcomp : r.2.getD false <;>
          simp [h, List.countP_cons, hn, hcomp] <;> omega
      | some p =>
        obtain ⟨c, t⟩ := p
        cases hcomp : r.2.getD false <;>
          simp [h, List.countP_cons, hn, hcomp] <;> omega
    · rw [lookStat_bump_other acc r.1 name (r.2.getD false)
        (fun he => hn he.symm)]
      have hp1 : (r.1 == name) = false := by
        simp [hn]
      have hc1 : List.countP (fun x => x.1 == name) (r :: rest) =
          List.countP (fun x => x.1 == name) rest := by
        simp [List.countP_cons, hp1]
      have hc2 : List.countP
            (fun x => x.1 == name && x.2.getD false) (r :: rest) =
          List.countP (fun x => x.1 == name && x.2.getD false) rest := by
        simp [List.countP_cons, hp1]
      rw [hc1, hc2]

/-- Every row generated for a habit is labelled with that habit's name. -/
theorem habitRowsFor_fst (db : DB) (uid : Nat) (today : Int) (h : HabitRow)
    (r : String × Option Bool) (hr : r ∈ habitRowsFor db uid today h) :
    r.1 = h.habit_name := by
  unfold habitRowsFor at hr
  cases hls : windowLogs db uid today h.id with
  | nil =>
    rw [hls] at hr
    simp only [List.mem_singleton] at hr
    rw [hr]
  | cons l0 t =>
    rw [hls] at hr
    obtain ⟨l, -, hl⟩ := List.mem_map.mp hr
    rw [← hl]

/-- With pairwise-distinct habit names, counting name-tagged rows over the
whole joined row list equals counting over the one habit's own rows. -/
theorem countP_flat_rows (db : DB) (uid : Nat) (today : Int)
    (p : (String × Option Bool) → Bool) (name : String)
    (hpother : ∀ r : String × Option Bool, r.1 ≠ name → p r = false) :
    ∀ (hs : List HabitRow) (h : HabitRow),
      ((hs.map (fun x => x.habit_name)).Nodup) → h ∈ hs →
      h.habit_name = name →
      (hs.flatMap (habitRowsFor db uid today)).countP p =
        (habitRowsFor db uid today h).countP p := by
  intro hs
  induction hs with
  | nil => intro h _ hmem; cases hmem
  | cons h' t ih =>
    intro h hnd hmem hname
    simp only [List.map_cons, List.nodup_cons] at hnd
    obtain ⟨hnotin, hndt⟩ := hnd
    simp only [List.flatMap_cons, List.countP_append]
    rcases List.mem_cons.mp hmem with heq | hmemt
    · subst heq
      have hzero : (t.flatMap (habitRowsFor db uid today)).countP p = 0 := by
        rw [List.countP_eq_zero]
        intro r hr
        obtain ⟨h'', hmem'', hr''⟩ := List.mem_flatMap.mp hr
        have hfst := habitRowsFor_fst db uid today h'' r hr''
        have hne : h''.habit_name ≠ name := by
          intro he
          apply hnotin
          rw [hname, ← he]
          exact List.mem_map.mpr ⟨h'', hmem'', rfl⟩
        simp [hpother r (by rw [hfst]; exact hne)]
      omega
    · have hne' : h'.habit_name ≠ name := by
        intro he
        apply hnotin
        rw [← hname] at he
        rw [he]
        exact List.mem_map.mpr ⟨h, hmemt, rfl⟩
      have hzero : (habitRowsFor db uid today h').countP p = 0 := by
        rw [List.countP_eq_zero]
        intro r hr
        have hfst := habitRowsFor_fst db uid today h' r hr
        simp [hpother r (by rw [hfst]; exact hne')]
      rw [hzero, ih h hndt hmemt hname]
      omega

/-- C4 counterexample: a habit with no log rows in the window is reported
with `total_days_logged = 1` (its NULL left-join row is counted), not 0 as
the claim states; its `completed_count` is 0. -/
theorem weekly_stats_no_log_habit_cex :
    (lookWeekly (dbYoga.get_habit_stats_weekly 1 10) "Yoga").map
      (fun s => (s.completed, s.total)) = some (0, 1) := by
  decide

/-- C4 amended: for a user whose habit names are pairwise distinct, the
weekly stats entry of a habit with `t ≥ 1` log rows in the 7-day window
reports `completed_count = c` (its completed rows), `total_days_logged = t`
and `percentage = c / t * 100`; a habit with no log rows in the window is
reported as `completed_count = 0`, `total_days_logged = 1`, `percentage = 0`
(not `total_days_logged = 0`). -/
theorem weekly_stats_characterization (db : DB) (uid : Nat) (today : Int)
    (h : HabitRow) (hmem : h ∈ db.habits) (huid : h.user_id = uid)
    (hnodup : ((db.get_user_habits uid).map (fun x => x.habit_name)).Nodup) :
    lookWeekly (db.get_habit_stats_weekly uid today) h.habit_name =
      some (if (windowLogs db uid today h.id).length = 0 then ⟨0, 1, 0⟩
        else
          ⟨(windowLogs db uid today h.id).countP (fun l => l.completed),
           (windowLogs db uid today h.id).length,
           ((windowLogs db uid today h.id).countP (fun l => l.completed) : ℚ) /
             ((windowLogs db uid today h.id).length : ℚ) * 100⟩) := by
  have hmemu : h ∈ db.get_user_habits uid :=
    List.mem_filter.mpr ⟨hmem, by simp [huid]⟩
  have hpo1 : ∀ r : String × Option Bool, r.1 ≠ h.habit_name →
      (r.1 == h.habit_name) = false := by
    intro r hr; simp [hr]
  have hpo2 : ∀ r : String × Option Bool, r.1 ≠ h.habit_name →
      (r.1 == h.habit_name && r.2.getD false) = false := by
    intro r hr; simp [hr]
  have htc := countP_flat_rows db uid today (fun r => r.1 == h.habit_name)
    h.habit_name hpo1 (db.get_user_habits uid) h hnodup hmemu rfl
  have hcc := countP_flat_rows db uid today
    (fun r => r.1 == h.habit_name && r.2.getD false) h.habit_name hpo2
    (db.get_user_habits uid) h hnodup hmemu rfl
  unfold DB.get_habit_stats_weekly
  rw [lookWeekly_map mkWeekly]
  unfold aggWeekly weeklyRows
  rw [lookStat_agg]
  simp only [lookStat]
  rw [htc, hcc]
  cases hls : windowLogs db uid today h.id with
  | nil =>
    simp only [habitRowsFor, hls]
    simp [mkWeekly]
  | cons l0 t =>
    have hfc : habitRowsFor db uid today h =
        (l0 :: t).map (fun l => (h.habit_name, some l.completed)) := by
      unfold habitRowsFor; rw [hls]
    rw [hfc]
    simp only [List.countP_map]
    have he1 : List.countP
        ((fun r : String × Option Bool => r.1 == h.habit_name) ∘
          (fun l : HabitLogRow => (h.habit_name, some l.completed)))
        (l0 :: t) = (l0 :: t).length := by
      simp [Function.comp]
    have he2 : List.countP
        ((fun r : String × Option Bool =>
            r.1 == h.habit_name && r.2.getD false) ∘
          (fun l : HabitLogRow => (h.habit_name, some l.completed)))
        (l0 :: t) =
        (l0 :: t).countP (fun l => l.completed) := by
      apply List.countP_congr
      intro l _
      simp [Function.comp]
    rw [he1, he2]
    simp [mkWeekly]

/-- Witness for C4's amended statement: "Gym" with logs on 3 of the last 7
days, 2 completed, reports completed 2, total 3, percentage 2/3·100. -/
theorem weekly_stats_characterization_witness :
    lookWeekly (dbGym.get_habit_stats_weekly 1 10) "Gym" =
      some ⟨2, 3, (2 : ℚ) / (3 : ℚ) * 100⟩ := by
  have h := weekly_stats_characterization dbGym 1 10 ⟨1, 1, "Gym"⟩
    (by decide) rfl (by decide)
  have hw : windowLogs dbGym 1 10 (⟨1, 1, "Gym"⟩ : HabitRow).id =
      [⟨1, 1, 1, 10, true⟩, ⟨2, 1, 1, 9, true⟩, ⟨3, 1, 1, 8, false⟩] := by
    decide
  rw [hw] at h
  rw [h]
  norm_num [List.countP_cons]

/-! ### C2: the time validator -/

/-- Membership in an if-guarded singleton. -/
theorem mem_ite_singleton {α : Type} (g : Prop) [Decidable g] (a x : α) :
    (x ∈ if g then [a] else []) ↔ g ∧ x = a := by
  split <;> simp_all

/-- The `%H` two-digit alternatives `2[0-3]|[0-1]\d` together accept exactly
the two-digit values 00–23. -/
theorem hour2_guard (c1 c2 : Char) :
    ((chN c1 = 50 && (48 ≤ chN c2 && chN c2 ≤ 51)) = true ∨
      ((48 ≤ chN c1 && chN c1 ≤ 49) && isDig c2) = true) ↔
    (isDig c1 = true ∧ isDig c2 = true ∧ dval c1 * 10 + dval c2 ≤ 23) := by
  simp only [isDig, dval, Bool.and_eq_true, decide_eq_true_eq]
  omega

/-- The `%M` two-digit alternative `[0-5]\d` accepts exactly 00–59. -/
theorem min2_guard (c1 c2 : Char) :
    (((48 ≤ chN c1 && chN c1 ≤ 53) && isDig c2) = true) ↔
    (isDig c1 = true ∧ isDig c2 = true ∧ dval c1 * 10 + dval c2 ≤ 59) := by
  simp only [isDig, dval, Bool.and_eq_true, decide_eq_true_eq]
  omega

theorem hourCands_mem (l r : List Char) :
    r ∈ hourCands l ↔
      ((∃ c1 c2, l = c1 :: c2 :: r ∧ isDig c1 = true ∧ isDig c2 = true ∧
          dval c1 * 10 + dval c2 ≤ 23) ∨
        (∃ c, l = c :: r ∧ isDig c = true)) := by
  cases l with
  | nil => simp [hourCands]
  | cons c1 t =>
    cases t with
    | nil =>
      by_cases hd : isDig c1 = true
      · simp only [hourCands, List.nil_append]
        rw [if_pos hd]
        simp only [List.mem_singleton]
        constructor
        · rintro rfl; exact Or.inr ⟨c1, rfl, hd⟩
        · rintro (⟨d1, d2, heq, -⟩ | ⟨d, heq, -⟩)
          · cases heq
          · injection heq with e1 e2; exact e2.symm
      · simp only [Bool.not_eq_true] at hd
        simp [hourCands, hd]
    | cons c2 rest =>
      simp only [hourCands, List.mem_append, mem_ite_singleton]
      constructor
      · rintro ((⟨hg, rfl⟩ | ⟨hg, rfl⟩) | ⟨hg, rfl⟩)
        · obtain ⟨h1, h2, h3⟩ := (hour2_guard c1 c2).mp (Or.inl hg)
          exact Or.inl ⟨c1, c2, rfl, h1, h2, h3⟩
        · obtain ⟨h1, h2, h3⟩ := (hour2_guard c1 c2).mp (Or.inr hg)
          exact Or.inl ⟨c1, c2, rfl, h1, h2, h3⟩
        · exact Or.inr ⟨c1, rfl, hg⟩
      · rintro (⟨d1, d2, heq, h1, h2, h3⟩ | ⟨d, heq, hd⟩)
        · injection heq with e1 e2
          injection e2 with e2 e3
          subst e1; subst e2; subst e3
          rcases (hour2_guard c1 c2).mpr ⟨h1, h2, h3⟩ with hg | hg
          · exact Or.inl (Or.inl ⟨hg, rfl⟩)
          · exact Or.inl (Or.inr ⟨hg, rfl⟩)
        · injection heq with e1 e2
          subst e1; subst e2
          exact Or.inr ⟨hd, rfl⟩

theorem minCands_mem (l r : List Char) :
    r ∈ minCands l ↔
      ((∃ c1 c2, l = c1 :: c2 :: r ∧ isDig c1 = true ∧ isDig c2 = true ∧
          dval c1 * 10 + dval c2 ≤ 59) ∨
        (∃ c, l = c :: r ∧ isDig c = true)) := by
  cases l with
  | nil => simp [minCands]
  | cons c1 t =>
    cases t with
    | nil =>
      by_cases hd : isDig c1 = true
      · simp only [minCands, List.nil_append]
        rw [if_pos hd]
        simp only [List.mem_singleton]
        constructor
        · rintro rfl; exact Or.inr ⟨c1, rfl, hd⟩
        · rintro (⟨d1, d2, heq, -⟩ | ⟨d, heq, -⟩)
          · cases heq
          · injection heq with e1 e2; exact e2.symm
      · simp only [Bool.not_eq_true] at hd
        simp [minCands, hd]
    | cons c2 rest =>
      simp only [minCands, List.mem_append, mem_ite_singleton]
      constructor
      · rintro (⟨hg, rfl⟩ | ⟨hg, rfl⟩)
        · obtain ⟨h1, h2, h3⟩ := (min2_guard c1 c2).mp hg
          exact Or.inl ⟨c1, c2, rfl, h1, h2, h3⟩
        · exact Or.inr ⟨c1, rfl, hg⟩
      · rintro (⟨d1, d2, heq, h1, h2, h3⟩ | ⟨d, heq, hd⟩)
        · injection heq with e1 e2
          injection e2 with e2 e3
          subst e1; subst e2; subst e3
          exact Or.inl ⟨(min2_guard c1 c2).mpr ⟨h1, h2, h3⟩, rfl⟩
        · injection heq with e1 e2
          subst e1; subst e2
          exact Or.inr ⟨hd, rfl⟩

/-- The acceptance condition of the `%H:%M` matcher: a 1–2 digit hour
of value ≤ 23, a colon, and a 1–2 digit minute of value ≤ 59, consuming the
whole string. -/
theorem strptimeHM_iff (s : String) :
    strptimeHM s = true ↔
      ∃ hd md : List Char, s.data = hd ++ ':' :: md ∧
        ((∃ c, hd = [c] ∧ isDig c = true) ∨
          (∃ c1 c2, hd = [c1, c2] ∧ isDig c1 = true ∧ isDig c2 = true ∧
            dval c1 * 10 + dval c2 ≤ 23)) ∧
        ((∃ c, md = [c] ∧ isDig c = true) ∨
          (∃ c1 c2, md = [c1, c2] ∧ isDig c1 = true ∧ isDig c2 = true ∧
            dval c1 * 10 + dval c2 ≤ 59)) := by
  unfold strptimeHM
  rw [List.any_eq_true]
  constructor
  · rintro ⟨r1, hr1, hp⟩
    cases r1 with
    | nil => simp at hp
    | cons c r2 =>
      simp only [Bool.and_eq_true, decide_eq_true_eq, List.any_eq_true] at hp
      obtain ⟨rfl, r3, hr3, hr3e⟩ := hp
      have hr3nil : r3 = [] := by
        cases r3 with
        | nil => rfl
        | cons a b => simp [List.isEmpty] at hr3e
      subst hr3nil
      rcases (hourCands_mem s.data (':' :: r2)).mp hr1 with
        ⟨c1, c2, heq, h1, h2, h3⟩ | ⟨c0, heq, h0⟩
      · refine ⟨[c1, c2], r2, by simpa using heq, Or.inr ⟨c1, c2, rfl, h1, h2, h3⟩, ?_⟩
        rcases (minCands_mem r2 []).mp hr3 with
          ⟨e1, e2, heq2, g1, g2, g3⟩ | ⟨e, heq2, g0⟩
        · exact Or.inr ⟨e1, e2, heq2, g1, g2, g3⟩
        · exact Or.inl ⟨e, heq2, g0⟩
      · refine ⟨[c0], r2, by simpa using heq, Or.inl ⟨c0, rfl, h0⟩, ?_⟩
        rcases (minCands_mem r2 []).mp hr3 with
          ⟨e1, e2, heq2, g1, g2, g3⟩ | ⟨e, heq2, g0⟩
        · exact Or.inr ⟨e1, e2, heq2, g1, g2, g3⟩
        · exact Or.inl ⟨e, heq2, g0⟩
  · rintro ⟨hd, md, heq, hhour, hmin⟩
    refine ⟨':' :: md, ?_, ?_⟩
    · rw [hourCands_mem]
      rcases hhour with ⟨c, rfl, hc⟩ | ⟨c1, c2, rfl, h1, h2, h3⟩
      · exact Or.inr ⟨c, by simpa using heq, hc⟩
      · exact Or.inl ⟨c1, c2, by simpa using heq, h1, h2, h3⟩
    · simp only [Bool.and_eq_true, decide_eq_true_eq, List.any_eq_true]
      refine ⟨by trivial, [], ?_, by simp [List.isEmpty]⟩
      rw [minCands_mem]
      rcases hmin with ⟨c, rfl, hc⟩ | ⟨c1, c2, rfl, g1, g2, g3⟩
      · exact Or.inr ⟨c, rfl, hc⟩
      · exact Or.inl ⟨c1, c2, rfl, g1, g2, g3⟩

/-- C2 counterexample: the validator accepts "7:30" — `strptime('%H:%M')`
takes one-digit hours — contradicting the claim that only two-digit `HH:MM`
strings are accepted and that "7:30" is rejected. -/
theorem time_validator_single_digit_hour_cex : strptimeHM "7:30" = true := by
  decide

/-- C2 amended: the time validator accepts a string iff it is a 1- or
2-digit hour of value 0–23, a colon, and a 1- or 2-digit minute of value
0–59 ("25:00" and "" are rejected, but "7:30" is accepted); rejection at the
bedtime/waketime steps re-prompts the identical step without mutating
scratch, the store, or the gateway. -/
theorem time_validator_characterization :
    (∀ s : String, strptimeHM s = true ↔
      ∃ hd md : List Char, s.data = hd ++ ':' :: md ∧
        ((∃ c, hd = [c] ∧ isDig c = true) ∨
          (∃ c1 c2, hd = [c1, c2] ∧ isDig c1 = true ∧ isDig c2 = true ∧
            dval c1 * 10 + dval c2 ≤ 23)) ∧
        ((∃ c, md = [c] ∧ isDig c = true) ∨
          (∃ c1 c2, md = [c1, c2] ∧ isDig c1 = true ∧ isDig c2 = true ∧
            dval c1 * 10 + dval c2 ≤ 59))) ∧
    strptimeHM "25:00" = false ∧ strptimeHM "" = false ∧
    strptimeHM "7:30" = true ∧
    (∀ (gwOk : Bool) (uid : Nat) (today : Int) (raw : String)
        (ud : UserData) (db : DB),
      ((ud.onboarding_step = some "bedtime" ∨
          ud.onboarding_step = some "waketime") →
        strptimeHM (pyStrip raw) = false →
        handle_text_message gwOk uid today raw ud db =
          ⟨ud, db, [Reply.invalidTime], []⟩) ∧
      (ud.onboarding_step = none →
        (ud.preferences_mode = some "change_bedtime" ∨
          ud.preferences_mode = some "change_waketime") →
        strptimeHM (pyStrip raw) = false →
        handle_text_message gwOk uid today raw ud db =
          ⟨ud, db, [Reply.invalidTime], []⟩)) := by
  refine ⟨strptimeHM_iff, by decide, by decide, by decide, ?_⟩
  intro gwOk uid today raw ud db
  constructor
  · rintro (h1 | h1) hbad <;>
    · simp only [handle_text_message, h1, Option.isSome_some, if_true]
      simp [handle_onboarding, h1, hbad]
  · rintro h0 (h1 | h1) hbad <;>
    · simp only [handle_text_message, h0, h1, Option.isSome_none,
        Option.isSome_some, if_true, Bool.false_eq_true, if_false]
      simp [handle_preferences, h1, hbad]

/-- Witness for C2's amended statement: "25:00" at the onboarding bedtime
step re-prompts and changes nothing. -/
theorem time_validator_characterization_witness :
    handle_text_message true 1 0 "25:00"
        ({ onboarding_step := some "bedtime" } : UserData) dbRun =
      ⟨{ onboarding_step := some "bedtime" }, dbRun, [Reply.invalidTime], []⟩ :=
  (time_validator_characterization.2.2.2.2 true 1 0 "25:00" _ dbRun).1
    (Or.inl rfl) (by decide)
